import Mathlib

/-!
Verification of the Tori appointment scheduling core against its
specification. The scheduling engine (findAvailableSlots, bookAppointment,
cancelAppointment, approveAppointment, rejectAppointment) lives in
src/utils/appointmentUtils.js, which is not part of the provided sources;
only its test suites are. Those operations are therefore modelled from the
specification text (sections 4.1 to 4.4 and 7), with doc comments marking
each such definition. The business-registration functions
(validateBusinessData, registerBusiness) are present in
src/__tests__/BusinessFunctionality.test.js and are translated from that
source directly.
-/

namespace Tori

/-- One entry of a SlotDay grid: a time label and an availability flag. -/
structure Slot where
  time : String
  available : Bool
deriving Repr, DecidableEq

/-- The state of the slots field of a stored SlotDay document. A present
document may carry a proper sequence of slots, or a missing, null, or
non-sequence slots field (malformed data, as exercised by the tests). -/
inductive SlotsField where
  | missing : SlotsField
  | nullVal : SlotsField
  | notSeq : SlotsField
  | seq (slots : List Slot) : SlotsField
deriving Repr, DecidableEq

/-- Number of consecutive slots a service needs:
ceil(serviceDurationMinutes / granularity). -/
def slotsNeeded (serviceDurationMinutes granularity : Nat) : Nat :=
  (serviceDurationMinutes + granularity - 1) / granularity

/-- All of the n slots starting at index i exist and are available. -/
def windowFree (slots : List Slot) (i n : Nat) : Bool :=
  (List.range n).all (fun j =>
    match slots.get? (i + j) with
    | some s => s.available
    | none => false)

/-- Modelled from the spec: the Availability Calculator of
src/utils/appointmentUtils.js (absent from src/), section 4.1. Given the
caller-supplied businessId (none models null/absent), the loaded SlotDay
document for (businessId, date) (none models an absent document), the
requested service duration, and the slot granularity of the business, it
returns the ascending list of start indexes whose whole window of
slotsNeeded slots exists and is available. Absent or empty businessId,
absent document, and missing/null/non-sequence slots fields all yield the
empty list instead of an error. -/
def findAvailableSlots (businessId : Option String) (dayDoc : Option SlotsField)
    (serviceDurationMinutes granularity : Nat) : List Nat :=
  match businessId with
  | none => []
  | some b =>
    if b = "" then []
    else
      match dayDoc with
      | none => []
      | some SlotsField.missing => []
      | some SlotsField.nullVal => []
      | some SlotsField.notSeq => []
      | some (SlotsField.seq slots) =>
        (List.range slots.length).filter
          (fun i => windowFree slots i (slotsNeeded serviceDurationMinutes granularity))

/-- Claim C4: findAvailableSlots never raises: whenever businessId is
null/absent or empty, or the SlotDay document is absent, or its slots field
is missing, null, or not a sequence, it returns the empty list. -/
theorem findAvailableSlots_degrades_to_empty
    (businessId : Option String) (dayDoc : Option SlotsField) (dur gran : Nat)
    (h : businessId = none ∨ businessId = some "" ∨ dayDoc = none ∨
      dayDoc = some SlotsField.missing ∨ dayDoc = some SlotsField.nullVal ∨
      dayDoc = some SlotsField.notSeq) :
    findAvailableSlots businessId dayDoc dur gran = [] := by
  rcases h with h | h | h | h | h | h <;> subst h <;>
    first
      | rfl
      | · cases businessId with
          | none => rfl
          | some b =>
            simp only [findAvailableSlots]
            split <;> rfl

/-- Witness for C4: concrete evaluation on a null slots field. -/
theorem findAvailableSlots_degrades_to_empty_witness :
    (some SlotsField.nullVal = (none : Option SlotsField) ∨
        some SlotsField.nullVal = some SlotsField.missing ∨
        some SlotsField.nullVal = some SlotsField.nullVal ∨
        some SlotsField.nullVal = some SlotsField.notSeq) ∧
      findAvailableSlots (some "test-business-id") (some SlotsField.nullVal) 30 15 = [] := by
  refine ⟨Or.inr (Or.inr (Or.inl rfl)), ?_⟩
  exact findAvailableSlots_degrades_to_empty (some "test-business-id")
    (some SlotsField.nullVal) 30 15
    (Or.inr (Or.inr (Or.inr (Or.inr (Or.inl rfl)))))

/-- Claim C5: on a well-formed SlotDay, findAvailableSlots returns exactly
the start indexes whose window of slotsNeeded = ceil(duration/granularity)
slots all exist and are available, and the returned indexes are strictly
ascending. -/
theorem findAvailableSlots_characterization
    (b : String) (slots : List Slot) (dur gran : Nat)
    (hb : b ≠ "") (hdur : 0 < dur) (hgran : 0 < gran) :
    (∀ i : Nat,
        i ∈ findAvailableSlots (some b) (some (SlotsField.seq slots)) dur gran ↔
          ∀ j < slotsNeeded dur gran,
            ∃ s : Slot, slots.get? (i + j) = some s ∧ s.available = true) ∧
      List.Pairwise (· < ·)
        (findAvailableSlots (some b) (some (SlotsField.seq slots)) dur gran) := by
  have hneed : 0 < slotsNeeded dur gran := by
    have h1 : gran ≤ dur + gran - 1 := by omega
    exact Nat.div_pos h1 hgran
  have hfun : findAvailableSlots (some b) (some (SlotsField.seq slots)) dur gran =
      (List.range slots.length).filter
        (fun i => windowFree slots i (slotsNeeded dur gran)) := by
    simp only [findAvailableSlots, if_neg hb]
  constructor
  · intro i
    rw [hfun, List.mem_filter, List.mem_range]
    constructor
    · rintro ⟨-, hw⟩ j hj
      have := (List.all_eq_true.mp hw) j (List.mem_range.mpr hj)
      cases hg : slots.get? (i + j) with
      | none => rw [hg] at this; simp at this
      | some s =>
        rw [hg] at this
        exact ⟨s, rfl, this⟩
    · intro hall
      have hw : windowFree slots i (slotsNeeded dur gran) = true := by
        apply List.all_eq_true.mpr
        intro j hj
        obtain ⟨s, hs, hav⟩ := hall j (List.mem_range.mp hj)
        rw [hs]
        exact hav
      refine ⟨?_, hw⟩
      obtain ⟨s, hs, -⟩ := hall 0 hneed
      have : i + 0 < slots.length := List.get?_eq_some.mp hs |>.1
      omega
  · rw [hfun]
    exact List.Pairwise.sublist (List.filter_sublist _) (List.pairwise_lt_range _)

/-- Witness for C5: concrete evaluation on the four-slot grid used by the
test suite (three available slots, the fourth unavailable), 30-minute
service with 15-minute granularity. -/
theorem findAvailableSlots_characterization_witness :
    ("test-business-id" ≠ "" ∧ 0 < 30 ∧ 0 < 15) ∧
      ((1 ∈ findAvailableSlots (some "test-business-id")
          (some (SlotsField.seq
            [⟨"09:00", true⟩, ⟨"09:15", true⟩, ⟨"09:30", true⟩, ⟨"09:45", false⟩]))
          30 15) ↔
        ∀ j < slotsNeeded 30 15,
          ∃ s : Slot,
            ([⟨"09:00", true⟩, ⟨"09:15", true⟩, ⟨"09:30", true⟩,
              (⟨"09:45", false⟩ : Slot)]).get? (1 + j) = some s ∧
              s.available = true) := by
  refine ⟨⟨by decide, by decide, by decide⟩, ?_⟩
  exact (findAvailableSlots_characterization "test-business-id"
    [⟨"09:00", true⟩, ⟨"09:15", true⟩, ⟨"09:30", true⟩, ⟨"09:45", false⟩]
    30 15 (by decide) (by decide) (by decide)).1 1

/-- An appointment document as stored in the appointments collection
(data model of spec section 3). Defaults ease construction of the
partial records used by the test suites. -/
structure Appointment where
  businessId : String := ""
  customerId : String := ""
  serviceId : String := ""
  date : String := ""
  startTime : Nat := 0
  endTime : Nat := 0
  slotIndexes : List Nat := []
  status : String := "pending"
  serviceName : String := ""
  servicePrice : Nat := 0
  rejectionReason : Option String := none
deriving Repr, DecidableEq

/-- One write inside an atomic batch handed to the Storage Port:
creating an appointment document in a collection, overwriting an
appointment document status, or flipping the availability of one slot
index of the (businessId, date) SlotDay. -/
inductive BatchOp where
  | createAppointment (collection docId : String) (appt : Appointment) : BatchOp
  | setApptStatus (collection docId status : String) : BatchOp
  | markSlot (businessId date : String) (idx : Nat) (avail : Bool) : BatchOp
deriving Repr, DecidableEq

/-- The slots stored for one business on one date. -/
structure SlotDayRec where
  businessId : String
  date : String
  slots : List Slot
deriving Repr, DecidableEq

/-- The observable document-store state: appointment documents keyed by id
and SlotDay records keyed by (businessId, date). -/
structure StoreState where
  appointments : List (String × Appointment) := []
  slotDays : List SlotDayRec := []
deriving Repr, DecidableEq

/-- Set the availability flag of the slot at one index, leaving the rest of
the grid unchanged. -/
def setSlotAvail (slots : List Slot) (idx : Nat) (avail : Bool) : List Slot :=
  slots.mapIdx (fun j s => if j = idx then { s with available := avail } else s)

/-- Apply one batch write to the store state. -/
def applyBatchOp (st : StoreState) : BatchOp → StoreState
  | BatchOp.createAppointment _ docId appt =>
    { st with appointments := (docId, appt) :: st.appointments }
  | BatchOp.setApptStatus _ docId status =>
    let upd := fun (p : String × Appointment) =>
      if p.1 = docId then (p.1, { p.2 with status := status }) else p
    { st with appointments := st.appointments.map upd }
  | BatchOp.markSlot b d idx avail =>
    let upd := fun (r : SlotDayRec) =>
      if r.businessId = b ∧ r.date = d
        then { r with slots := setSlotAvail r.slots idx avail } else r
    { st with slotDays := st.slotDays.map upd }

/-- Apply a whole atomic batch: all of its writes, in order. -/
def applyBatch (st : StoreState) (ops : List BatchOp) : StoreState :=
  ops.foldl applyBatchOp st

/-- Service metadata carried by a booking request. -/
structure ServiceDetails where
  name : String
  price : Nat
deriving Repr, DecidableEq

/-- Result shape of the Booking Coordinator. -/
structure BookResult where
  success : Bool
  appointmentId : Option String
  error : Option String
deriving Repr, DecidableEq

/-- Outcome of a booking call: its returned result, the store state after
the call, and the trace of atomic batch commits it invoked (one entry per
commit call, each the list of writes in that batch). -/
structure BookOutcome where
  result : BookResult
  state : StoreState
  commits : List (List BatchOp)
deriving Repr, DecidableEq

/-- The batch a booking assembles: create the appointment document with a
fresh id in the appointments collection, in status pending, with endTime
computed from startTime plus the duration, and mark each requested slot
index unavailable. -/
def bookingOps (businessId customerId serviceId date : String) (startTime : Nat)
    (slotIndexes : List Nat) (serviceDurationMinutes : Nat)
    (details : ServiceDetails) (freshId : String) : List BatchOp :=
  BatchOp.createAppointment "appointments" freshId
    { businessId := businessId
      customerId := customerId
      serviceId := serviceId
      date := date
      startTime := startTime
      endTime := startTime + serviceDurationMinutes
      slotIndexes := slotIndexes
      status := "pending"
      serviceName := details.name
      servicePrice := details.price
      rejectionReason := none } ::
    slotIndexes.map (fun i => BatchOp.markSlot businessId date i false)

/-- Modelled from the spec: the Booking Coordinator of
src/utils/appointmentUtils.js (absent from src/), section 4.2. The Storage
Port commit behaviour is injected as commitFail: none means the atomic
batch commits, some msg means it rejects with message msg. freshId is the
appointment id generated before the commit. On commit the batch is applied
to the state and the fresh id is returned; a rejection is caught locally
and converted to a structured failure with the rejection message, leaving
the state untouched. -/
def bookAppointment (st : StoreState) (commitFail : Option String)
    (businessId customerId serviceId date : String) (startTime : Nat)
    (slotIndexes : List Nat) (serviceDurationMinutes : Nat)
    (details : ServiceDetails) (freshId : String) : BookOutcome :=
  let ops := bookingOps businessId customerId serviceId date startTime
    slotIndexes serviceDurationMinutes details freshId
  match commitFail with
  | some msg =>
    { result := { success := false, appointmentId := none, error := some msg }
      state := st
      commits := [ops] }
  | none =>
    { result := { success := true, appointmentId := some freshId, error := none }
      state := applyBatch st ops
      commits := [ops] }

/-- Result shape of the Cancellation Coordinator. -/
structure CancelResult where
  success : Bool
  error : Option String
deriving Repr, DecidableEq

/-- Outcome of a cancellation call, with the trace of atomic batch commits
it invoked. -/
structure CancelOutcome where
  result : CancelResult
  state : StoreState
  commits : List (List BatchOp)
deriving Repr, DecidableEq

/-- Look up an appointment document by id. -/
def getAppointment (st : StoreState) (appointmentId : String) : Option Appointment :=
  (st.appointments.find? (fun p => p.1 = appointmentId)).map Prod.snd

/-- Modelled from the spec: the Cancellation Coordinator of
src/utils/appointmentUtils.js (absent from src/), section 4.3. In one
atomic batch it sets the appointment status to cancelled and re-marks each
of its previously held slot indexes available; a commit rejection (again
injected as commitFail) is converted to a structured failure with the
rejection message, leaving the state untouched. The spec does not describe
the absent-appointment case; the model then fails without invoking any
commit, and no claim relies on that branch. -/
def cancelAppointment (st : StoreState) (commitFail : Option String)
    (businessId appointmentId date : String) : CancelOutcome :=
  match getAppointment st appointmentId with
  | none =>
    { result := { success := false, error := some "Appointment not found" }
      state := st
      commits := [] }
  | some a =>
    let ops := BatchOp.setApptStatus "appointments" appointmentId "cancelled" ::
      a.slotIndexes.map (fun i => BatchOp.markSlot businessId date i true)
    match commitFail with
    | some msg =>
      { result := { success := false, error := some msg }
        state := st
        commits := [ops] }
    | none =>
      { result := { success := true, error := none }
        state := applyBatch st ops
        commits := [ops] }

/-- The booking request used by the appointment test suite. -/
def sampleDetails : ServiceDetails :=
  { name := "Test Service", price := 100 }

/-- A stored appointment resembling the test fixture: the booking made by
the appointment test suite, already confirmed. -/
def sampleAppointment : Appointment :=
  { businessId := "test-business-id"
    customerId := "test-user-id"
    serviceId := "test-service-id"
    date := "2025-01-21"
    startTime := 540
    endTime := 570
    slotIndexes := [0, 1]
    status := "confirmed"
    serviceName := "Test Service"
    servicePrice := 100
    rejectionReason := none }

/-- A store holding the sample appointment and its slot day. -/
def sampleStore : StoreState :=
  { appointments := [("test-appointment-id", sampleAppointment)]
    slotDays := [{ businessId := "test-business-id"
                   date := "2025-01-21"
                   slots := [⟨"09:00", false⟩, ⟨"09:15", false⟩,
                             ⟨"09:30", true⟩, ⟨"09:45", false⟩] }] }

/-- Claim C1: when the atomic batch commit of a booking rejects with any
message, bookAppointment returns success false carrying that exact message
as its error, and the store state is unchanged: neither the appointment
document nor any slot mutation is committed. The failure is a returned
value, never an unhandled rejection. -/
theorem bookAppointment_commit_failure (st : StoreState) (msg : String)
    (b c s d : String) (t : Nat) (idxs : List Nat) (dur : Nat)
    (det : ServiceDetails) (fid : String) :
    (bookAppointment st (some msg) b c s d t idxs dur det fid).result =
        { success := false, appointmentId := none, error := some msg } ∧
      (bookAppointment st (some msg) b c s d t idxs dur det fid).state = st :=
  ⟨rfl, rfl⟩

/-- Claim C3: when the atomic commit succeeds, bookAppointment returns
success true with the fresh appointment id, invokes exactly one atomic
batch commit, and that single batch creates the appointment document in the
appointments collection in status pending and marks each requested slot
index unavailable. -/
theorem bookAppointment_success (st : StoreState)
    (b c s d : String) (t : Nat) (idxs : List Nat) (dur : Nat)
    (det : ServiceDetails) (fid : String) :
    (bookAppointment st none b c s d t idxs dur det fid).result =
        { success := true, appointmentId := some fid, error := none } ∧
      (bookAppointment st none b c s d t idxs dur det fid).commits.length = 1 ∧
      ∀ ops ∈ (bookAppointment st none b c s d t idxs dur det fid).commits,
        (∃ a : Appointment,
            BatchOp.createAppointment "appointments" fid a ∈ ops ∧
              a.status = "pending") ∧
          ∀ i ∈ idxs, BatchOp.markSlot b d i false ∈ ops := by
  refine ⟨rfl, rfl, ?_⟩
  intro ops hops
  have h1 : ops = bookingOps b c s d t idxs dur det fid := by
    simpa [bookAppointment] using hops
  subst h1
  constructor
  · exact ⟨_, List.mem_cons_self _ _, rfl⟩
  · intro i hi
    exact List.mem_cons_of_mem _ (List.mem_map_of_mem _ hi)

/-- Witness for C3: the booking of the test suite commits one batch that
creates a pending appointment document in the appointments collection. -/
theorem bookAppointment_success_witness :
    (bookAppointment {} none "test-business-id" "test-user-id"
        "test-service-id" "2025-01-21" 540 [0, 1] 30 sampleDetails
        "fresh-id").commits.length = 1 := by
  have h := bookAppointment_success {} "test-business-id" "test-user-id"
    "test-service-id" "2025-01-21" 540 [0, 1] 30 sampleDetails "fresh-id"
  exact h.2.1

/-- Claim C8: a cancellation of an existing booking assembles one atomic
batch that sets the appointment status to cancelled and re-marks each of
its slot indexes available; every commit failure with message m yields the
returned result success false with error m and leaves the state unchanged,
and a successful commit yields success true. -/
theorem cancelAppointment_behaviour (st : StoreState)
    (b apId d : String) (a : Appointment)
    (h : getAppointment st apId = some a) :
    (∀ msg : String,
        (cancelAppointment st (some msg) b apId d).result =
            { success := false, error := some msg } ∧
          (cancelAppointment st (some msg) b apId d).state = st ∧
          (cancelAppointment st (some msg) b apId d).commits.length = 1) ∧
      (cancelAppointment st none b apId d).result.success = true ∧
      (cancelAppointment st none b apId d).commits.length = 1 ∧
      ∀ ops ∈ (cancelAppointment st none b apId d).commits,
        BatchOp.setApptStatus "appointments" apId "cancelled" ∈ ops ∧
          ∀ i ∈ a.slotIndexes, BatchOp.markSlot b d i true ∈ ops := by
  refine ⟨?_, ?_, ?_, ?_⟩
  · intro msg
    refine ⟨?_, ?_, ?_⟩ <;> simp [cancelAppointment, h]
  · simp [cancelAppointment, h]
  · simp [cancelAppointment, h]
  · intro ops hops
    have h1 : ops = BatchOp.setApptStatus "appointments" apId "cancelled" ::
        a.slotIndexes.map (fun i => BatchOp.markSlot b d i true) := by
      simpa [cancelAppointment, h] using hops
    subst h1
    constructor
    · exact List.mem_cons_self _ _
    · intro i hi
      exact List.mem_cons_of_mem _ (List.mem_map_of_mem _ hi)

/-- Witness for C8: cancelling the sample booking while the commit rejects
with the message used by the test yields exactly that structured failure. -/
theorem cancelAppointment_behaviour_witness :
    getAppointment sampleStore "test-appointment-id" = some sampleAppointment ∧
      (cancelAppointment sampleStore (some "Cancellation failed")
          "test-business-id" "test-appointment-id" "2025-01-21").result =
        { success := false, error := some "Cancellation failed" } := by
  refine ⟨rfl, ?_⟩
  exact ((cancelAppointment_behaviour sampleStore "test-business-id"
    "test-appointment-id" "2025-01-21" sampleAppointment rfl).1
    "Cancellation failed").1

/-- A field value written by a document update: a plain string or the
storage layer's server-side timestamp placeholder. -/
inductive FieldValue where
  | str (s : String) : FieldValue
  | serverTimestamp : FieldValue
deriving Repr, DecidableEq

/-- A single-document update handed to the Storage Port: the target
collection and document id, and exactly the written fields. -/
structure DocUpdate where
  collection : String
  docId : String
  fields : List (String × FieldValue)
deriving Repr, DecidableEq

/-- A notification event produced by the Approval Workflow and handed to
the external delivery collaborator. -/
structure NotificationEvent where
  type : String
  customerId : String
  appointmentId : String
  reason : Option String
deriving Repr, DecidableEq

/-- Result of an approve or reject call: the returned success flag and
error, the produced notification event if any, and the document update
performed if any. -/
structure WorkflowResult where
  success : Bool
  error : Option String
  notification : Option NotificationEvent
  docUpdate : Option DocUpdate
deriving Repr, DecidableEq

/-- A structured workflow failure: returned, never thrown; neither a
notification nor a document update accompanies it. -/
def wfFailure (e : String) : WorkflowResult :=
  { success := false, error := some e, notification := none, docUpdate := none }

/-- Modelled from the spec: approveAppointment of
src/utils/appointmentUtils.js (absent from src/), section 4.4. stored is
the result of loading the appointment document by id (none when it does not
exist). The precondition checks run in fixed order: existence, ownership by
the calling business, pending status; the first failing one yields its
structured failure. On success the appointment document receives exactly
the fields status = confirmed and updatedAt = server timestamp, and an
APPOINTMENT_APPROVED notification for the appointment's customer is
produced. -/
def approveAppointment (businessId appointmentId : String)
    (stored : Option Appointment) : WorkflowResult :=
  match stored with
  | none => wfFailure "Appointment not found"
  | some a =>
    if a.businessId = businessId then
      if a.status = "pending" then
        { success := true
          error := none
          notification := some { type := "APPOINTMENT_APPROVED"
                                 customerId := a.customerId
                                 appointmentId := appointmentId
                                 reason := none }
          docUpdate := some { collection := "appointments"
                              docId := appointmentId
                              fields := [("status", FieldValue.str "confirmed"),
                                         ("updatedAt", FieldValue.serverTimestamp)] } }
      else wfFailure "Appointment is not in pending status"
    else wfFailure "Unauthorized access"

/-- The supplied rejection reason is empty or blank: it consists only of
whitespace. Equivalent to trimming and comparing with the empty string, but
stated directly over the characters. -/
def isBlank (s : String) : Bool :=
  s.data.all Char.isWhitespace

/-- Modelled from the spec: rejectAppointment of
src/utils/appointmentUtils.js (absent from src/), section 4.4. The checks
of approveAppointment run first, in the same order, then the supplied
reason must not be empty or blank. On success the appointment document
receives exactly the fields status = rejected, rejectionReason = the
supplied reason, and updatedAt = server timestamp, and an
APPOINTMENT_REJECTED notification carrying the reason is produced. -/
def rejectAppointment (businessId appointmentId reason : String)
    (stored : Option Appointment) : WorkflowResult :=
  match stored with
  | none => wfFailure "Appointment not found"
  | some a =>
    if a.businessId = businessId then
      if a.status = "pending" then
        if isBlank reason then wfFailure "Rejection reason is required"
        else
          { success := true
            error := none
            notification := some { type := "APPOINTMENT_REJECTED"
                                   customerId := a.customerId
                                   appointmentId := appointmentId
                                   reason := some reason }
            docUpdate := some { collection := "appointments"
                                docId := appointmentId
                                fields := [("status", FieldValue.str "rejected"),
                                           ("rejectionReason", FieldValue.str reason),
                                           ("updatedAt", FieldValue.serverTimestamp)] } }
      else wfFailure "Appointment is not in pending status"
    else wfFailure "Unauthorized access"

/-- A pending appointment owned by the business of the approval test
suite. -/
def pendingAppointment : Appointment :=
  { businessId := "business123"
    customerId := "customer456"
    status := "pending"
    startTime := 780 }

/-- Claim C2: approve and reject evaluate their precondition checks in
fixed order - missing appointment, foreign business, non-pending status,
and for reject a blank reason - and the first failing check yields the
returned structured failure with the corresponding verbatim message. -/
theorem approval_error_precedence (b apId reason : String) (a : Appointment) :
    (approveAppointment b apId none = wfFailure "Appointment not found" ∧
        rejectAppointment b apId reason none = wfFailure "Appointment not found") ∧
      (a.businessId ≠ b →
        approveAppointment b apId (some a) = wfFailure "Unauthorized access" ∧
          rejectAppointment b apId reason (some a) = wfFailure "Unauthorized access") ∧
      (a.businessId = b → a.status ≠ "pending" →
        approveAppointment b apId (some a) =
            wfFailure "Appointment is not in pending status" ∧
          rejectAppointment b apId reason (some a) =
            wfFailure "Appointment is not in pending status") ∧
      (a.businessId = b → a.status = "pending" → isBlank reason = true →
        rejectAppointment b apId reason (some a) =
          wfFailure "Rejection reason is required") := by
  refine ⟨⟨rfl, rfl⟩, ?_, ?_, ?_⟩
  · intro hb
    exact ⟨by simp [approveAppointment, hb], by simp [rejectAppointment, hb]⟩
  · intro hb hs
    exact ⟨by simp [approveAppointment, hb, hs], by simp [rejectAppointment, hb, hs]⟩
  · intro hb hs hr
    simp [rejectAppointment, hb, hs, hr]

/-- Witness for C2: a business that does not own the pending test
appointment is refused with the unauthorized-access failure. -/
theorem approval_error_precedence_witness :
    pendingAppointment.businessId ≠ "wrong123" ∧
      approveAppointment "wrong123" "appointment789" (some pendingAppointment) =
        wfFailure "Unauthorized access" := by
  refine ⟨by decide, ?_⟩
  exact ((approval_error_precedence "wrong123" "appointment789" ""
    pendingAppointment).2.1 (by decide)).1

/-- Claim C6: approving an existing pending appointment owned by the caller
updates the appointment document with exactly the fields status = confirmed
and updatedAt = server timestamp and returns success with an
APPOINTMENT_APPROVED notification for the appointment's customer. -/
theorem approveAppointment_success (b apId : String) (a : Appointment)
    (hb : a.businessId = b) (hs : a.status = "pending") :
    approveAppointment b apId (some a) =
      { success := true
        error := none
        notification := some { type := "APPOINTMENT_APPROVED"
                               customerId := a.customerId
                               appointmentId := apId
                               reason := none }
        docUpdate := some { collection := "appointments"
                            docId := apId
                            fields := [("status", FieldValue.str "confirmed"),
                                       ("updatedAt", FieldValue.serverTimestamp)] } } := by
  simp [approveAppointment, hb, hs]

/-- Witness for C6: approving the pending test appointment. -/
theorem approveAppointment_success_witness :
    pendingAppointment.businessId = "business123" ∧
      pendingAppointment.status = "pending" ∧
      (approveAppointment "business123" "appointment789"
          (some pendingAppointment)).notification =
        some { type := "APPOINTMENT_APPROVED"
               customerId := "customer456"
               appointmentId := "appointment789"
               reason := none } := by
  refine ⟨rfl, rfl, ?_⟩
  rw [approveAppointment_success "business123" "appointment789"
    pendingAppointment rfl rfl]
  rfl

/-- Claim C7: rejecting an existing pending appointment owned by the caller
with a non-blank reason updates the appointment document with exactly the
fields status = rejected, rejectionReason, and updatedAt = server
timestamp, and returns success with an APPOINTMENT_REJECTED notification
carrying the customer id and the reason. -/
theorem rejectAppointment_success (b apId reason : String) (a : Appointment)
    (hb : a.businessId = b) (hs : a.status = "pending")
    (hr : isBlank reason = false) :
    rejectAppointment b apId reason (some a) =
      { success := true
        error := none
        notification := some { type := "APPOINTMENT_REJECTED"
                               customerId := a.customerId
                               appointmentId := apId
                               reason := some reason }
        docUpdate := some { collection := "appointments"
                            docId := apId
                            fields := [("status", FieldValue.str "rejected"),
                                       ("rejectionReason", FieldValue.str reason),
                                       ("updatedAt", FieldValue.serverTimestamp)] } } := by
  simp [rejectAppointment, hb, hs, hr]

/-- Witness for C7: rejecting the pending test appointment for a schedule
conflict. -/
theorem rejectAppointment_success_witness :
    pendingAppointment.businessId = "business123" ∧
      pendingAppointment.status = "pending" ∧
      isBlank "Schedule conflict" = false ∧
      (rejectAppointment "business123" "appointment789" "Schedule conflict"
          (some pendingAppointment)).notification =
        some { type := "APPOINTMENT_REJECTED"
               customerId := "customer456"
               appointmentId := "appointment789"
               reason := some "Schedule conflict" } := by
  refine ⟨rfl, rfl, by decide, ?_⟩
  rw [rejectAppointment_success "business123" "appointment789"
    "Schedule conflict" pendingAppointment rfl rfl (by decide)]
  rfl

/-- Claim C9: re-approving an already confirmed appointment is idempotent
in its failure: every such call fails, performs no document update, and
produces no notification, and a call by the owning business always yields
the same structured not-in-pending-status failure. -/
theorem approveAppointment_confirmed_idempotent (b apId : String)
    (a : Appointment) (hs : a.status = "confirmed") :
    (approveAppointment b apId (some a)).success = false ∧
      (approveAppointment b apId (some a)).notification = none ∧
      (approveAppointment b apId (some a)).docUpdate = none ∧
      (a.businessId = b →
        approveAppointment b apId (some a) =
          wfFailure "Appointment is not in pending status") := by
  have hns : a.status ≠ "pending" := by rw [hs]; decide
  by_cases hb : a.businessId = b
  · refine ⟨?_, ?_, ?_, fun _ => ?_⟩ <;> simp [approveAppointment, hb, hns, wfFailure]
  · refine ⟨?_, ?_, ?_, fun hb2 => absurd hb2 hb⟩ <;>
      simp [approveAppointment, hb, wfFailure]

/-- Witness for C9: re-approving the sample confirmed booking fails with
the not-in-pending-status message and fires no notification. -/
theorem approveAppointment_confirmed_idempotent_witness :
    sampleAppointment.status = "confirmed" ∧
      (approveAppointment "test-business-id" "test-appointment-id"
          (some sampleAppointment)).notification = none := by
  refine ⟨rfl, ?_⟩
  exact (approveAppointment_confirmed_idempotent "test-business-id"
    "test-appointment-id" sampleAppointment rfl).2.1

/-- Truthiness of an optional string form field as JavaScript sees it:
an absent field and the empty string are falsy. -/
def strTruthy : Option String → Bool
  | none => false
  | some s => !(s == "")

/-- The Israeli mobile phone pattern of
src/__tests__/BusinessFunctionality.test.js: the digit 0, the digit 5, then
exactly eight further digits. -/
def isIsraeliPhone (s : String) : Bool :=
  match s.data with
  | '0' :: '5' :: rest => rest.length == 8 && rest.all Char.isDigit
  | _ => false

/-- The character class of the email pattern: anything but whitespace and
the at sign. -/
def emailChar (c : Char) : Bool :=
  !c.isWhitespace && c != '@'

/-- The domain part contains a dot that is neither its first nor its last
character. -/
def hasInteriorDot (cs : List Char) : Bool :=
  ((cs.drop 1).dropLast).contains '.'

/-- The email pattern of src/__tests__/BusinessFunctionality.test.js: one
or more non-space non-at characters, an at sign, then a domain of non-space
non-at characters containing an interior dot (so that at least one such
character stands on each side of some dot). -/
def emailRegexMatch (s : String) : Bool :=
  match s.data.splitOn '@' with
  | [localPart, domainPart] =>
    !localPart.isEmpty && !domainPart.isEmpty &&
      localPart.all emailChar && domainPart.all emailChar &&
      hasInteriorDot domainPart
  | _ => false

/-- Categories are valid when the field is present (a JavaScript array is
truthy even when empty) and non-empty. -/
def categoriesOk : Option (List String) → Bool
  | none => false
  | some l => !l.isEmpty

/-- The password is present and at least six characters long. -/
def passwordOk : Option String → Bool
  | none => false
  | some p => 6 ≤ p.length

/-- A business registration request, as handed to validateBusinessData.
Optional fields model JavaScript properties that a caller may omit. -/
structure BusinessData where
  businessName : Option String := none
  ownerName : Option String := none
  ownerPhone : String := ""
  businessPhone : String := ""
  email : String := ""
  address : Option String := none
  categories : Option (List String) := none
  password : Option String := none
deriving Repr, DecidableEq

/-- Translated from validateBusinessData of
src/__tests__/BusinessFunctionality.test.js: each check throws its error
message, in source order, and true is returned when every check passes. A
thrown error is the Except.error case. -/
def validateBusinessData (d : BusinessData) : Except String Bool :=
  if !strTruthy d.businessName then Except.error "Business name is required"
  else if !strTruthy d.ownerName then Except.error "Owner name is required"
  else if !isIsraeliPhone d.ownerPhone then Except.error "Invalid phone number format"
  else if !isIsraeliPhone d.businessPhone then Except.error "Invalid phone number format"
  else if !emailRegexMatch d.email then Except.error "Invalid email format"
  else if !strTruthy d.address then Except.error "Address is required"
  else if !categoriesOk d.categories then Except.error "At least one category is required"
  else if !passwordOk d.password then Except.error "Password must be at least 6 characters"
  else Except.ok true

/-- The value registerBusiness resolves with. -/
structure RegisterSuccess where
  success : Bool
  businessId : String
deriving Repr, DecidableEq

/-- Translated from registerBusiness of
src/__tests__/BusinessFunctionality.test.js: validation runs first and its
thrown errors propagate; the auth layer account creation (whose outcome is
injected as authResult, an error being a rejected promise such as a
duplicate email) propagates its rejection; so does the profile write
(setResult); otherwise the call resolves with success true and the new
user id as businessId. -/
def registerBusiness (d : BusinessData) (authResult : Except String String)
    (setResult : Except String Unit) : Except String RegisterSuccess :=
  match validateBusinessData d with
  | Except.error e => Except.error e
  | Except.ok _ =>
    match authResult with
    | Except.error e => Except.error e
    | Except.ok uid =>
      match setResult with
      | Except.error e => Except.error e
      | Except.ok _ => Except.ok { success := true, businessId := uid }

/-- The valid registration request used by the business test suite. -/
def mockBusinessData : BusinessData :=
  { businessName := some "Elegant Hair Salon"
    ownerName := some "John Smith"
    ownerPhone := "0501234567"
    businessPhone := "0509876543"
    email := "john@eleganthair.com"
    address := some "Main Street 123, Tel Aviv"
    categories := some ["מספרות"]
    password := some "Secure123!" }

/-- Claim C10: the registration path uses thrown errors for its expected
failures: validateBusinessData throws the respective message on a missing
business name, a phone that does not match the Israeli mobile pattern, an
invalid email, an empty category list, or a short password, and returns
true exactly when all checks pass; registerBusiness propagates an
auth-layer rejection such as a duplicate email instead of returning a
success-false result, and resolves with success true otherwise. -/
theorem businessRegistration_throws (d : BusinessData) (e uid : String) :
    (strTruthy d.businessName = false →
        validateBusinessData d = Except.error "Business name is required") ∧
      (strTruthy d.businessName = true → strTruthy d.ownerName = true →
        isIsraeliPhone d.ownerPhone = false →
        validateBusinessData d = Except.error "Invalid phone number format") ∧
      (strTruthy d.businessName = true → strTruthy d.ownerName = true →
        isIsraeliPhone d.ownerPhone = true → isIsraeliPhone d.businessPhone = true →
        emailRegexMatch d.email = false →
        validateBusinessData d = Except.error "Invalid email format") ∧
      (strTruthy d.businessName = true → strTruthy d.ownerName = true →
        isIsraeliPhone d.ownerPhone = true → isIsraeliPhone d.businessPhone = true →
        emailRegexMatch d.email = true → strTruthy d.address = true →
        categoriesOk d.categories = false →
        validateBusinessData d = Except.error "At least one category is required") ∧
      (strTruthy d.businessName = true → strTruthy d.ownerName = true →
        isIsraeliPhone d.ownerPhone = true → isIsraeliPhone d.businessPhone = true →
        emailRegexMatch d.email = true → strTruthy d.address = true →
        categoriesOk d.categories = true → passwordOk d.password = false →
        validateBusinessData d = Except.error "Password must be at least 6 characters") ∧
      (validateBusinessData d = Except.ok true ↔
        strTruthy d.businessName = true ∧ strTruthy d.ownerName = true ∧
          isIsraeliPhone d.ownerPhone = true ∧ isIsraeliPhone d.businessPhone = true ∧
          emailRegexMatch d.email = true ∧ strTruthy d.address = true ∧
          categoriesOk d.categories = true ∧ passwordOk d.password = true) ∧
      (validateBusinessData d = Except.ok true →
        ∀ r : Except String Unit,
          registerBusiness d (Except.error e) r = Except.error e) ∧
      (validateBusinessData d = Except.ok true →
        registerBusiness d (Except.ok uid) (Except.ok ()) =
          Except.ok { success := true, businessId := uid }) := by
  refine ⟨?_, ?_, ?_, ?_, ?_, ?_, ?_, ?_⟩
  · intro h1
    simp [validateBusinessData, h1]
  · intro h1 h2 h3
    simp [validateBusinessData, h1, h2, h3]
  · intro h1 h2 h3 h4 h5
    simp [validateBusinessData, h1, h2, h3, h4, h5]
  · intro h1 h2 h3 h4 h5 h6 h7
    simp [validateBusinessData, h1, h2, h3, h4, h5, h6, h7]
  · intro h1 h2 h3 h4 h5 h6 h7 h8
    simp [validateBusinessData, h1, h2, h3, h4, h5, h6, h7, h8]
  · simp only [validateBusinessData]
    split_ifs with h1 h2 h3 h4 h5 h6 h7 h8 <;> simp_all
  · intro hv r
    simp [registerBusiness, hv]
  · intro hv
    simp [registerBusiness, hv]

/-- Witness for C10: the mock registration request validates to true, and a
duplicate email rejection from the auth layer propagates out of
registerBusiness verbatim. -/
theorem businessRegistration_throws_witness :
    validateBusinessData mockBusinessData = Except.ok true ∧
      registerBusiness mockBusinessData
          (Except.error "The email address is already in use") (Except.ok ()) =
        Except.error "The email address is already in use" := by
  have hv : validateBusinessData mockBusinessData = Except.ok true :=
    (businessRegistration_throws mockBusinessData "" "").2.2.2.2.2.1.mpr
      ⟨by decide, by decide, by decide, by decide, by decide, by decide,
        by decide, by decide⟩
  exact ⟨hv, (businessRegistration_throws mockBusinessData
    "The email address is already in use" "").2.2.2.2.2.2.1 hv (Except.ok ())⟩

end Tori
